import Mathlib

/-!
Shallow embedding of the AWS IoT MQTT connection-configuration subsystem of
aws-crt-cpp (source/iot/MqttClient.cpp together with include/aws/iot/MqttClient.h):
`MqttClientConnectionConfig`, `MqttClientConnectionConfigBuilder` with its fluent
setters and `Build`, and the `MqttClient` facade's `NewConnection`.

Strings are Lean `String`; the C++ `std::string::find(pat) != npos` substring test
is `strContains`, and `find_first_of(chars) != npos` (first occurrence of ANY single
character of `chars`) is `hasAnyCharOf`.  Error codes are `Nat` with `0 = success`,
mirroring the aws error-code convention.  The external TLS / CRT layers (platform
ALPN capability, `SetAlpnList`, trust-store override, TLS-context realization, the
underlying `Crt::Mqtt::MqttClient`) are modelled as explicit environments whose
outcomes parameterize the functions that call into them.
-/

namespace AwsIot

/-- `leadsWith pat s` is true when the character list `pat` occurs at the head of
`s` (the prefix test underlying the substring search). -/
def leadsWith : List Char → List Char → Bool
  | [], _ => true
  | _ :: _, [] => false
  | a :: as, b :: bs => a == b && leadsWith as bs

/-- `occursIn pat s` is true when `pat` occurs as a contiguous run somewhere in
`s`; this is `std::string::find(pat) != npos`. -/
def occursIn (pat : List Char) : List Char → Bool
  | [] => leadsWith pat []
  | c :: t => leadsWith pat (c :: t) || occursIn pat t

/-- `strContains s pat` embeds the C++ substring test `s.find(pat) != npos`. -/
def strContains (s pat : String) : Bool :=
  occursIn pat.data s.data

/-- `hasAnyCharOf s chars` embeds `s.find_first_of(chars) != npos`: true when `s`
contains at least one individual character drawn from `chars` (NOT a substring
search). -/
def hasAnyCharOf (s chars : String) : Bool :=
  s.data.any (fun c => chars.data.contains c)

/-- Modelled from the spec: `AWS_ERROR_INVALID_STATE` is a fixed nonzero error
code from the external aws-c-common error registry, which is not part of this
repository; the subsystem relies only on it being nonzero. -/
def AWS_ERROR_INVALID_STATE : Nat := 14

/-- Socket options accumulated by the builder (`Crt::Io::SocketOptions`), with the
fields the fluent setters touch. -/
structure SocketOptions where
  connectTimeoutMs : Nat
  keepAlive : Bool
  keepAliveTimeoutSec : Nat
  keepAliveIntervalSec : Nat
  keepAliveMaxFailedProbes : Nat
  deriving Repr, DecidableEq

/-- `Crt::Io::SocketOptions` default construction (fields zeroed / keep-alive off). -/
def SocketOptions.default : SocketOptions :=
  { connectTimeoutMs := 0, keepAlive := false, keepAliveTimeoutSec := 0
    keepAliveIntervalSec := 0, keepAliveMaxFailedProbes := 0 }

/-- The slice of `Crt::Io::TlsContextOptions` state this subsystem reads and
writes: validity (`operator bool`), the error reported by `LastError()` after a
failed operation, the ALPN protocol list, the minimum TLS version, and whether
the default trust store was overridden. -/
structure TlsCtxOptions where
  valid : Bool
  lastError : Nat
  alpnList : Option String
  minTlsVersion : Option Nat
  trustStoreOverridden : Bool
  deriving Repr, DecidableEq

/-- A freshly and successfully initialized `TlsContextOptions` (any of the
`InitClientWithMtls*` / `InitDefaultClient` initializers succeeding). -/
def TlsCtxOptions.ok : TlsCtxOptions :=
  { valid := true, lastError := 0, alpnList := none, minTlsVersion := none
    trustStoreOverridden := false }

/-- A `TlsContextOptions` whose initializer failed with error `e`
(`operator bool` false, `LastError() = e`). -/
def TlsCtxOptions.failed (e : Nat) : TlsCtxOptions :=
  { valid := false, lastError := e, alpnList := none, minTlsVersion := none
    trustStoreOverridden := false }

/-- Outcome of a `TlsContextOptions` initializer: `none` = success,
`some e` = failure with error `e`. -/
def TlsCtxOptions.ofInit : Option Nat → TlsCtxOptions
  | none => TlsCtxOptions.ok
  | some e => TlsCtxOptions.failed e

/-- `WebsocketConfig` as the builder consumes it: only its optional proxy options
(and its presence) feed the finalize algorithm; credentials/signer/closure
factory are opaque external capabilities.  Proxy options are modelled as opaque
tags (`Nat`) so distinct option sets are distinguishable. -/
structure WebsocketConfig where
  proxyOptions : Option Nat
  signingRegion : String
  deriving Repr, DecidableEq

/-- Responses of the external TLS layer / platform consumed by the builder:
whether ALPN is supported (both the static and the per-options capability query
consult the same platform fact), the outcome of `SetAlpnList` per protocol
string (`none` = accepted), the outcome of `OverrideDefaultTrustStore`, and the
outcome of realizing a TLS context from an option set (`none` = a valid context,
`some e` = an invalid context whose `GetInitializationError()` is `e`). -/
structure Env where
  alpnSupported : Bool
  setAlpn : String → Option Nat
  caOverride : Option Nat
  realize : TlsCtxOptions → Option Nat

/-- An environment is well formed when every failure it reports carries a
nonzero error code, the invariant the aws error-raising discipline guarantees. -/
def Env.wf (env : Env) : Prop :=
  (∀ s e, env.setAlpn s = some e → 0 < e) ∧
  (∀ e, env.caOverride = some e → 0 < e) ∧
  (∀ o e, env.realize o = some e → 0 < e)

/-- An all-success environment with ALPN supported. -/
def Env.allOk : Env :=
  { alpnSupported := true, setAlpn := fun _ => none, caOverride := none
    realize := fun _ => none }

/-- An all-success environment without ALPN support. -/
def Env.noAlpn : Env :=
  { alpnSupported := false, setAlpn := fun _ => none, caOverride := none
    realize := fun _ => none }

/-- `MqttClientConnectionConfigBuilder` state. -/
structure Builder where
  endpoint : String
  portOverride : Nat
  socketOptions : SocketOptions
  contextOptions : TlsCtxOptions
  websocketConfig : Option WebsocketConfig
  proxyOptions : Option Nat
  enableMetricsCollection : Bool
  sdkName : String
  sdkVersion : String
  username : String
  password : String
  isUsingCustomAuthorizer : Bool
  lastError : Nat
  deriving Repr, DecidableEq

/-- The private common constructor `MqttClientConnectionConfigBuilder(allocator)`:
no error, port override 0, connect timeout 3000 ms, in-class member defaults
(metrics on, sdk name "CPPv2", empty username/password, authorizer flag off). -/
def Builder.common : Builder :=
  { endpoint := ""
    portOverride := 0
    socketOptions := { SocketOptions.default with connectTimeoutMs := 3000 }
    contextOptions := TlsCtxOptions.ok
    websocketConfig := none
    proxyOptions := none
    enableMetricsCollection := true
    sdkName := "CPPv2"
    sdkVersion := "v0.18.8"
    username := ""
    password := ""
    isUsingCustomAuthorizer := false
    lastError := 0 }

/-- The public no-argument constructor: it only initializes the sticky error to
`AWS_ERROR_INVALID_STATE`; the remaining members take their in-class defaults
(`m_allocator`, `m_portOverride` and `m_endpoint` are left indeterminate in the
C++, and no claim depends on them, so they are given the common defaults here). -/
def Builder.defaultCtor : Builder :=
  { Builder.common with lastError := AWS_ERROR_INVALID_STATE }

/-- Any of the mTLS constructors (file paths, buffers, PKCS#11, Windows cert
store): delegate to the common constructor, install the initializer's option
set, and on initializer failure record its error as the sticky error.
`initResult = none` means the TLS initializer succeeded; `some e` that it failed
with error `e` (for example an invalid certificate path). -/
def Builder.mtlsCtor (initResult : Option Nat) : Builder :=
  let b := Builder.common
  match initResult with
  | none => { b with contextOptions := TlsCtxOptions.ok }
  | some e => { b with contextOptions := TlsCtxOptions.failed e, lastError := e }

/-- The WebSocket constructor: default-client TLS options (failure sticky), then
store the websocket config. -/
def Builder.websocketCtor (config : WebsocketConfig) (initResult : Option Nat) : Builder :=
  match initResult with
  | none =>
      { Builder.common with
        contextOptions := TlsCtxOptions.ok, websocketConfig := some config }
  | some e =>
      { Builder.common with
        contextOptions := TlsCtxOptions.failed e, lastError := e,
        websocketConfig := some config }

/-- `NewDefaultBuilder`: common constructor, then default-client TLS options.
Note the source does NOT check the initializer outcome here, so `lastError`
stays 0 even when `initResult` is a failure. -/
def Builder.newDefaultBuilder (initResult : Option Nat) : Builder :=
  { Builder.common with contextOptions := TlsCtxOptions.ofInit initResult }

/-- `WithEndpoint`. -/
def Builder.withEndpoint (b : Builder) (endpoint : String) : Builder :=
  { b with endpoint := endpoint }

/-- `WithMetricsCollection`. -/
def Builder.withMetricsCollection (b : Builder) (enabled : Bool) : Builder :=
  { b with enableMetricsCollection := enabled }

/-- `WithSdkName`. -/
def Builder.withSdkName (b : Builder) (sdkName : String) : Builder :=
  { b with sdkName := sdkName }

/-- `WithSdkVersion`. -/
def Builder.withSdkVersion (b : Builder) (sdkVersion : String) : Builder :=
  { b with sdkVersion := sdkVersion }

/-- `WithPortOverride`. -/
def Builder.withPortOverride (b : Builder) (port : Nat) : Builder :=
  { b with portOverride := port }

/-- `WithCertificateAuthority` (either overload): only acts when the context
options are valid; on a rejected trust-store override records the options'
error as the sticky error. -/
def Builder.withCertificateAuthority (b : Builder) (env : Env) : Builder :=
  if b.contextOptions.valid then
    match env.caOverride with
    | none =>
        { b with contextOptions := { b.contextOptions with trustStoreOverridden := true } }
    | some e =>
        { b with contextOptions := { b.contextOptions with lastError := e }, lastError := e }
  else b

/-- `WithTcpKeepAlive`. -/
def Builder.withTcpKeepAlive (b : Builder) : Builder :=
  { b with socketOptions := { b.socketOptions with keepAlive := true } }

/-- `WithTcpConnectTimeout`. -/
def Builder.withTcpConnectTimeout (b : Builder) (ms : Nat) : Builder :=
  { b with socketOptions := { b.socketOptions with connectTimeoutMs := ms } }

/-- `WithTcpKeepAliveTimeout`. -/
def Builder.withTcpKeepAliveTimeout (b : Builder) (secs : Nat) : Builder :=
  { b with socketOptions := { b.socketOptions with keepAliveTimeoutSec := secs } }

/-- `WithTcpKeepAliveInterval`. -/
def Builder.withTcpKeepAliveInterval (b : Builder) (secs : Nat) : Builder :=
  { b with socketOptions := { b.socketOptions with keepAliveIntervalSec := secs } }

/-- `WithTcpKeepAliveMaxProbes`. -/
def Builder.withTcpKeepAliveMaxProbes (b : Builder) (probes : Nat) : Builder :=
  { b with socketOptions := { b.socketOptions with keepAliveMaxFailedProbes := probes } }

/-- `WithMinimumTlsVersion` (unconditional, infallible set on the options). -/
def Builder.withMinimumTlsVersion (b : Builder) (v : Nat) : Builder :=
  { b with contextOptions := { b.contextOptions with minTlsVersion := some v } }

/-- `WithHttpProxyOptions`. -/
def Builder.withHttpProxyOptions (b : Builder) (proxy : Nat) : Builder :=
  { b with proxyOptions := some proxy }

/-- `WithUsername`. -/
def Builder.withUsername (b : Builder) (username : String) : Builder :=
  { b with username := username }

/-- `WithPassword`. -/
def Builder.withPassword (b : Builder) (password : String) : Builder :=
  { b with password := password }

/-- `AddToUsernameParameter`, the username composer: append `&` if the current
string already holds a `?`, else `?`; then append the value verbatim when it
already contains the key prefix as a substring, else prefix-then-value. -/
def AddToUsernameParameter (currentUsername parameterValue parameterPreText : String) :
    String :=
  let return_string :=
    if strContains currentUsername "?" then currentUsername ++ "&"
    else currentUsername ++ "?"
  if strContains parameterValue parameterPreText then
    return_string ++ parameterValue
  else
    return_string ++ parameterPreText ++ parameterValue

/-- `WithCustomAuthorizer`.  On a platform without ALPN support it records
`AWS_ERROR_INVALID_STATE` and changes nothing else.  Otherwise it sets the
custom-authorizer flag, rebuilds the username (starting from the argument, or
the previously set username when the argument is empty; appending the
authorizer-name and authorizer-signature parameters only when nonempty), sets
the password, sets the ALPN list to "mqtt" (recording the options' error when
the TLS layer rejects the list), and forces the port override to 443. -/
def Builder.withCustomAuthorizer (b : Builder) (env : Env)
    (username authorizerName authorizerSignature password : String) : Builder :=
  if !env.alpnSupported then
    { b with lastError := AWS_ERROR_INVALID_STATE }
  else
    let usernameString : String :=
      if username = "" then
        (if b.username ≠ "" then b.username else "")
      else username
    let usernameString :=
      if authorizerName ≠ "" then
        AddToUsernameParameter usernameString authorizerName "x-amz-customauthorizer-name="
      else usernameString
    let usernameString :=
      if authorizerSignature ≠ "" then
        AddToUsernameParameter usernameString authorizerSignature
          "x-amz-customauthorizer-signature="
      else usernameString
    let b := { b with isUsingCustomAuthorizer := true, username := usernameString,
                      password := password }
    let b :=
      match env.setAlpn "mqtt" with
      | none => { b with contextOptions := { b.contextOptions with alpnList := some "mqtt" } }
      | some e => { b with lastError := e }
    { b with portOverride := 443 }

/-- One fluent setter invocation, with the arguments the caller passes (the
environment responses come separately, so distinct calls may see distinct
external outcomes). -/
inductive SetterCall where
  | withEndpoint (endpoint : String)
  | withMetricsCollection (enabled : Bool)
  | withSdkName (s : String)
  | withSdkVersion (s : String)
  | withPortOverride (port : Nat)
  | withCertificateAuthority
  | withTcpKeepAlive
  | withTcpConnectTimeout (ms : Nat)
  | withTcpKeepAliveTimeout (secs : Nat)
  | withTcpKeepAliveInterval (secs : Nat)
  | withTcpKeepAliveMaxProbes (probes : Nat)
  | withMinimumTlsVersion (v : Nat)
  | withHttpProxyOptions (proxy : Nat)
  | withUsername (username : String)
  | withPassword (password : String)
  | withCustomAuthorizer (username authorizerName authorizerSignature password : String)

/-- Apply one fluent setter under the external environment `env`. -/
def applySetter (env : Env) (b : Builder) : SetterCall → Builder
  | .withEndpoint e => b.withEndpoint e
  | .withMetricsCollection en => b.withMetricsCollection en
  | .withSdkName s => b.withSdkName s
  | .withSdkVersion s => b.withSdkVersion s
  | .withPortOverride p => b.withPortOverride p
  | .withCertificateAuthority => b.withCertificateAuthority env
  | .withTcpKeepAlive => b.withTcpKeepAlive
  | .withTcpConnectTimeout ms => b.withTcpConnectTimeout ms
  | .withTcpKeepAliveTimeout s => b.withTcpKeepAliveTimeout s
  | .withTcpKeepAliveInterval s => b.withTcpKeepAliveInterval s
  | .withTcpKeepAliveMaxProbes p => b.withTcpKeepAliveMaxProbes p
  | .withMinimumTlsVersion v => b.withMinimumTlsVersion v
  | .withHttpProxyOptions p => b.withHttpProxyOptions p
  | .withUsername u => b.withUsername u
  | .withPassword p => b.withPassword p
  | .withCustomAuthorizer u an asig pw => b.withCustomAuthorizer env u an asig pw

/-- Apply a chain of fluent setter calls, each with its own environment. -/
def applySetters (b : Builder) : List (Env × SetterCall) → Builder
  | [] => b
  | (env, c) :: rest => applySetters (applySetter env b c) rest

/-- `MqttClientConnectionConfig`.  `contextValid` is the validity of the owned
realized TLS context (`m_context`); `alpnList` is the protocol list that option
set carried when the context was realized; interceptor presence is tracked as a
flag; proxy options are opaque tags. -/
structure Config where
  endpoint : String
  port : Nat
  contextValid : Bool
  alpnList : Option String
  hasInterceptor : Bool
  username : String
  password : String
  proxyOptions : Option Nat
  lastError : Nat
  deriving Repr, DecidableEq

/-- `MqttClientConnectionConfig::CreateInvalid(lastError)`: the private
error-code constructor leaves every member default-constructed except
`m_port = 0` and `m_lastError`; the default `TlsContext` is invalid. -/
def Config.createInvalid (lastError : Nat) : Config :=
  { endpoint := "", port := 0, contextValid := false, alpnList := none
    hasInterceptor := false, username := "", password := "", proxyOptions := none
    lastError := lastError }

/-- `MqttClientConnectionConfig::operator bool`: `m_context ? true : false` —
validity is the realized TLS context's validity, not the error field. -/
def Config.isValid (c : Config) : Bool := c.contextValid

/-- `MqttClientConnectionConfig::LastError()`. -/
def Config.configLastError (c : Config) : Nat := c.lastError

/-- The public direct-mTLS constructor `MqttClientConnectionConfig(endpoint,
port, socketOptions, tlsContext)`: takes ownership of a caller-supplied TLS
context (whose validity is `ctxValid` and whose option set carried `alpn`),
sets `m_lastError = 0`, no interceptor, no proxy options. -/
def Config.publicCtor (endpoint : String) (port : Nat) (ctxValid : Bool)
    (alpn : Option String) : Config :=
  { endpoint := endpoint, port := port, contextValid := ctxValid, alpnList := alpn
    hasInterceptor := false, username := "", password := "", proxyOptions := none
    lastError := 0 }

/-- The implicit custom-authorizer detection performed at the top of `Build`:
when the flag is not already set and the username is nonempty, the source tests
`m_username.find_first_of("x-amz-customauthorizer-name=") != npos ||
m_username.find_first_of("x-amz-customauthorizer-signature=") != npos` — i.e.
whether the username contains ANY single character of either marker string,
not the marker substrings themselves. -/
def Builder.detectCustomAuth (b : Builder) : Builder :=
  if !b.isUsingCustomAuthorizer then
    if b.username ≠ "" then
      if hasAnyCharOf b.username "x-amz-customauthorizer-name=" ||
         hasAnyCharOf b.username "x-amz-customauthorizer-signature=" then
        { b with isUsingCustomAuthorizer := true }
      else b
    else b
  else b

/-- Port resolution inside `Build`: a nonzero explicit override wins; otherwise
443 when a websocket setup is present or the platform supports ALPN, else 8883. -/
def Builder.resolvePort (b : Builder) (env : Env) : Nat :=
  if b.portOverride ≠ 0 then b.portOverride
  else if b.websocketConfig.isSome || env.alpnSupported then 443
  else 8883

/-- The ALPN-selection stage of `Build`, after detection: on the direct-mTLS
path (port 443, no websocket, ALPN supported, no authorizer) set the list to
"x-amzn-mqtt-ca"; then, when a custom authorizer is in use, warn (log only)
when the port is not 443 and set the list to "mqtt".  A rejected set operation
aborts `Build` with the options' error. -/
def Builder.alpnStage (b : Builder) (env : Env) (port : Nat) : Except Nat Builder :=
  let step1 : Except Nat Builder :=
    if port == 443 && b.websocketConfig.isNone && env.alpnSupported &&
       !b.isUsingCustomAuthorizer then
      match env.setAlpn "x-amzn-mqtt-ca" with
      | some e => .error e
      | none =>
          .ok { b with contextOptions := { b.contextOptions with alpnList := some "x-amzn-mqtt-ca" } }
    else .ok b
  match step1 with
  | .error e => .error e
  | .ok b =>
      if b.isUsingCustomAuthorizer then
        match env.setAlpn "mqtt" with
        | some e => .error e
        | none =>
            .ok { b with contextOptions := { b.contextOptions with alpnList := some "mqtt" } }
      else .ok b

/-- The metrics stage of `Build`: when metrics collection is enabled, append
`SDK=<name>&Version=<version>` to the (local copy of the) username, joined with
`&` when it already holds a `?` and with `?` otherwise. -/
def Builder.metricsUsername (b : Builder) (username : String) : String :=
  if b.enableMetricsCollection then
    (if strContains username "?" then username ++ "&" else username ++ "?") ++
      "SDK=" ++ b.sdkName ++ "&Version=" ++ b.sdkVersion
  else username

/-- The final assembly stage of `Build`, after successful TLS realization: the
direct path carries the builder-level proxy options and no interceptor; the
websocket path carries the signing interceptor and uses the websocket-level
proxy options only when they are present and the builder-level ones are not. -/
def Builder.assembleConfig (b : Builder) (port : Nat) (username password : String) :
    Config :=
  match b.websocketConfig with
  | none =>
      { endpoint := b.endpoint, port := port, contextValid := true
        alpnList := b.contextOptions.alpnList, hasInterceptor := false
        username := username, password := password, proxyOptions := b.proxyOptions
        lastError := 0 }
  | some ws =>
      let useWebsocketProxyOptions := ws.proxyOptions.isSome && b.proxyOptions.isNone
      { endpoint := b.endpoint, port := port, contextValid := true
        alpnList := b.contextOptions.alpnList, hasInterceptor := true
        username := username, password := password
        proxyOptions := if useWebsocketProxyOptions then ws.proxyOptions else b.proxyOptions
        lastError := 0 }

/-- `MqttClientConnectionConfigBuilder::Build()`.  Returns both the builder as
left behind by the call (the source mutates `m_isUsingCustomAuthorizer` and
`m_contextOptions` in place) and the produced configuration: short-circuit on a
sticky error; resolve the port; copy username/password; detect implicit custom
authorizer use; run the ALPN stage; append metrics parameters; realize the TLS
context; assemble the direct or websocket configuration. -/
def Builder.build (b : Builder) (env : Env) : Builder × Config :=
  if b.lastError ≠ 0 then
    (b, Config.createInvalid b.lastError)
  else
    let port := b.resolvePort env
    let username := b.username
    let password := b.password
    let b := b.detectCustomAuth
    match b.alpnStage env port with
    | .error e => (b, Config.createInvalid e)
    | .ok b =>
        let username := b.metricsUsername username
        match env.realize b.contextOptions with
        | some e => (b, Config.createInvalid e)
        | none => (b, b.assembleConfig port username password)

/-- Responses of the underlying `Crt::Mqtt::MqttClient` consumed by
`NewConnection`: allocation outcome, validity of the allocated connection, and
the login outcome, each with the error the failed object reports. -/
structure CrtEnv where
  allocOk : Bool
  allocError : Nat
  connValid : Bool
  connError : Nat
  loginOk : Bool
  loginError : Nat
  deriving Repr, DecidableEq

/-- The facade state: `internalLastError` is the `MqttClient::m_lastError`
member, and `clientErr` the last error currently recorded inside the underlying
`Crt::Mqtt::MqttClient` (`m_client`). -/
structure MqttClientState where
  internalLastError : Nat
  clientErr : Nat
  deriving Repr, DecidableEq

/-- `MqttClient::LastError()`: the header accessor returns
`m_client.LastError()` — the underlying protocol client's error, not the
facade's own `m_lastError` member. -/
def MqttClientState.observableLastError (st : MqttClientState) : Nat := st.clientErr

/-- The connection object `NewConnection` returns on success: whether and with
what credentials `SetLogin` was called, whether the websocket interceptor was
attached, and which proxy options were applied. -/
structure Connection where
  loginSet : Bool
  loginUsername : String
  loginPassword : String
  interceptorAttached : Bool
  proxyApplied : Option Nat
  deriving Repr, DecidableEq

/-- `MqttClient::NewConnection(config)`: reject an invalid config, recording its
sticky error in the (write-only) `m_lastError` member; allocate from the
underlying client (a failure there updates the underlying client's own error);
reject an invalid allocated connection; set login credentials exactly when the
username or the password is nonempty, discarding the connection on failure;
attach the interceptor on the websocket path; apply proxy options when present. -/
def newConnection (st : MqttClientState) (env : CrtEnv) (config : Config) :
    MqttClientState × Option Connection :=
  if !config.isValid then
    ({ st with internalLastError := config.configLastError }, none)
  else if !env.allocOk then
    ({ internalLastError := env.allocError, clientErr := env.allocError }, none)
  else if !env.connValid then
    ({ st with internalLastError := env.connError }, none)
  else if (config.username ≠ "" || config.password ≠ "") && !env.loginOk then
    ({ st with internalLastError := env.loginError }, none)
  else
    (st, some
      { loginSet := config.username ≠ "" || config.password ≠ ""
        loginUsername := config.username
        loginPassword := config.password
        interceptorAttached := config.hasInterceptor
        proxyApplied := config.proxyOptions })

/-- An all-success environment for the underlying CRT MQTT client. -/
def CrtEnv.allOk : CrtEnv :=
  { allocOk := true, allocError := 0, connValid := true, connError := 0
    loginOk := true, loginError := 0 }

/-- Definition following the specification's words (§4.4 "Custom-authorizer
username composer"), for comparison with the source translation
`AddToUsernameParameter`: append `?` to `current` if it contains no `?` yet,
else `&`; then, if the value already contains the key prefix as a substring,
append the value verbatim, otherwise append the prefix followed by the value. -/
def composeSpec (current paramValue preText : String) : String :=
  let joined := if strContains current "?" then current ++ "&" else current ++ "?"
  if strContains paramValue preText then joined ++ paramValue
  else joined ++ preText ++ paramValue

/-- The username `WithCustomAuthorizer` computes on the ALPN-supported path:
start from the argument (or the previously set username when the argument is
empty), then append the authorizer-name and authorizer-signature parameters via
the composer, each only when nonempty. -/
def customAuthUsername (b : Builder) (u an asig : String) : String :=
  let u0 := if u = "" then (if b.username ≠ "" then b.username else "") else u
  let u1 :=
    if an ≠ "" then AddToUsernameParameter u0 an "x-amz-customauthorizer-name=" else u0
  if asig ≠ "" then
    AddToUsernameParameter u1 asig "x-amz-customauthorizer-signature="
  else u1

section Lemmas

/-- Custom-authorizer detection never touches the sticky error (it either
returns the builder unchanged or only raises the flag). -/
lemma detectCustomAuth_cases (b : Builder) :
    b.detectCustomAuth = b ∨
    b.detectCustomAuth = { b with isUsingCustomAuthorizer := true } := by
  unfold Builder.detectCustomAuth
  split
  · split
    · split
      · right; rfl
      · left; rfl
    · left; rfl
  · left; rfl

lemma detectCustomAuth_lastError (b : Builder) :
    b.detectCustomAuth.lastError = b.lastError := by
  rcases detectCustomAuth_cases b with h | h <;> rw [h]

lemma detectCustomAuth_username (b : Builder) :
    b.detectCustomAuth.username = b.username := by
  rcases detectCustomAuth_cases b with h | h <;> rw [h]

lemma detectCustomAuth_websocketConfig (b : Builder) :
    b.detectCustomAuth.websocketConfig = b.websocketConfig := by
  rcases detectCustomAuth_cases b with h | h <;> rw [h]

lemma detectCustomAuth_contextOptions (b : Builder) :
    b.detectCustomAuth.contextOptions = b.contextOptions := by
  rcases detectCustomAuth_cases b with h | h <;> rw [h]

/-- The ALPN stage when a custom authorizer is in use: the direct-mTLS branch is
skipped and the list becomes "mqtt" (or the stage aborts with the rejection
error). -/
lemma alpnStage_customAuth (b : Builder) (env : Env) (port : Nat)
    (hf : b.isUsingCustomAuthorizer = true) :
    b.alpnStage env port =
      match env.setAlpn "mqtt" with
      | some e => .error e
      | none =>
          .ok { b with contextOptions := { b.contextOptions with alpnList := some "mqtt" } } := by
  unfold Builder.alpnStage
  simp [hf]

/-- The ALPN stage on the direct-mTLS path (no authorizer, port 443, no
websocket, ALPN supported): the list becomes "x-amzn-mqtt-ca" (or the stage
aborts with the rejection error). -/
lemma alpnStage_direct (b : Builder) (env : Env) (port : Nat)
    (hf : b.isUsingCustomAuthorizer = false) (hp : port = 443)
    (hw : b.websocketConfig = none) (ha : env.alpnSupported = true) :
    b.alpnStage env port =
      match env.setAlpn "x-amzn-mqtt-ca" with
      | some e => .error e
      | none =>
          .ok { b with contextOptions := { b.contextOptions with alpnList := some "x-amzn-mqtt-ca" } } := by
  unfold Builder.alpnStage
  subst hp
  simp [hf, hw, ha]
  cases env.setAlpn "x-amzn-mqtt-ca" <;> simp [hf]

/-- The ALPN stage when neither branch applies is the identity. -/
lemma alpnStage_skip (b : Builder) (env : Env) (port : Nat)
    (hf : b.isUsingCustomAuthorizer = false)
    (hc : (port == 443 && b.websocketConfig.isNone && env.alpnSupported) = false) :
    b.alpnStage env port = .ok b := by
  unfold Builder.alpnStage
  simp only [Bool.and_eq_true, Bool.and_eq_false_iff] at hc ⊢
  rcases hc with hc | hc
  · rcases hc with hc | hc <;> simp [hc, hf]
  · simp [hc, hf]

/-- Whatever the ALPN stage does, a successfully returned builder differs from
its input at most in the options' ALPN list. -/
lemma alpnStage_ok_shape (b b2 : Builder) (env : Env) (port : Nat)
    (h : b.alpnStage env port = .ok b2) :
    b2 = b ∨
    b2 = { b with contextOptions := { b.contextOptions with alpnList := some "x-amzn-mqtt-ca" } } ∨
    b2 = { b with contextOptions := { b.contextOptions with alpnList := some "mqtt" } } := by
  by_cases hf : b.isUsingCustomAuthorizer = true
  · rw [alpnStage_customAuth b env port hf] at h
    cases hm : env.setAlpn "mqtt" <;> rw [hm] at h
    · simp only [Except.ok.injEq] at h
      exact Or.inr (Or.inr h.symm)
    · simp at h
  · have hf' : b.isUsingCustomAuthorizer = false := by
      revert hf; cases b.isUsingCustomAuthorizer <;> simp
    by_cases hc : (port == 443 && b.websocketConfig.isNone && env.alpnSupported) = true
    · have hparts := hc
      simp only [Bool.and_eq_true] at hparts
      obtain ⟨⟨hp, hw⟩, ha⟩ := hparts
      have hp' : port = 443 := by simpa using hp
      have hw' : b.websocketConfig = none := Option.isNone_iff_eq_none.mp hw
      rw [alpnStage_direct b env port hf' hp' hw' ha] at h
      cases hs : env.setAlpn "x-amzn-mqtt-ca" <;> rw [hs] at h
      · simp only [Except.ok.injEq] at h
        exact Or.inr (Or.inl h.symm)
      · simp at h
    · have hc' : (port == 443 && b.websocketConfig.isNone && env.alpnSupported) = false := by
        revert hc; cases (port == 443 && b.websocketConfig.isNone && env.alpnSupported) <;> simp
      rw [alpnStage_skip b env port hf' hc'] at h
      simp only [Except.ok.injEq] at h
      exact Or.inl h.symm

/-- A failure of the ALPN stage is exactly a rejection of one of the two set
operations, and carries that rejection's error. -/
lemma alpnStage_error (b : Builder) (env : Env) (port : Nat) (e : Nat)
    (h : b.alpnStage env port = .error e) :
    env.setAlpn "x-amzn-mqtt-ca" = some e ∨ env.setAlpn "mqtt" = some e := by
  by_cases hf : b.isUsingCustomAuthorizer = true
  · rw [alpnStage_customAuth b env port hf] at h
    cases hm : env.setAlpn "mqtt" <;> rw [hm] at h
    · simp at h
    · simp only [Except.error.injEq] at h
      exact Or.inr (congrArg some h)
  · have hf' : b.isUsingCustomAuthorizer = false := by
      revert hf; cases b.isUsingCustomAuthorizer <;> simp
    by_cases hc : (port == 443 && b.websocketConfig.isNone && env.alpnSupported) = true
    · have hparts := hc
      simp only [Bool.and_eq_true] at hparts
      obtain ⟨⟨hp, hw⟩, ha⟩ := hparts
      have hp' : port = 443 := by simpa using hp
      have hw' : b.websocketConfig = none := Option.isNone_iff_eq_none.mp hw
      rw [alpnStage_direct b env port hf' hp' hw' ha] at h
      cases hs : env.setAlpn "x-amzn-mqtt-ca" <;> rw [hs] at h
      · simp at h
      · simp only [Except.error.injEq] at h
        exact Or.inl (congrArg some h)
    · have hc' : (port == 443 && b.websocketConfig.isNone && env.alpnSupported) = false := by
        revert hc; cases (port == 443 && b.websocketConfig.isNone && env.alpnSupported) <;> simp
      rw [alpnStage_skip b env port hf' hc'] at h
      simp at h

/-- `Build` short-circuits on a sticky error, leaving the builder untouched and
returning an invalid configuration that carries exactly that error. -/
lemma build_shortCircuit (b : Builder) (env : Env) (h : b.lastError ≠ 0) :
    b.build env = (b, Config.createInvalid b.lastError) := by
  unfold Builder.build
  simp [h]

/-- `Build` when the ALPN stage rejects: the detection side effect persists and
the result is invalid with the rejection error. -/
lemma build_alpnError_case (b : Builder) (env : Env) (e : Nat)
    (h0 : b.lastError = 0)
    (hs : b.detectCustomAuth.alpnStage env (b.resolvePort env) = .error e) :
    b.build env = (b.detectCustomAuth, Config.createInvalid e) := by
  unfold Builder.build
  simp [h0, hs]

/-- `Build` when the ALPN stage succeeds but TLS realization fails. -/
lemma build_realizeError_case (b : Builder) (env : Env) (b2 : Builder) (e : Nat)
    (h0 : b.lastError = 0)
    (hs : b.detectCustomAuth.alpnStage env (b.resolvePort env) = .ok b2)
    (hr : env.realize b2.contextOptions = some e) :
    b.build env = (b2, Config.createInvalid e) := by
  unfold Builder.build
  simp [h0, hs, hr]

/-- `Build` on the full success path. -/
lemma build_ok_case (b : Builder) (env : Env) (b2 : Builder)
    (h0 : b.lastError = 0)
    (hs : b.detectCustomAuth.alpnStage env (b.resolvePort env) = .ok b2)
    (hr : env.realize b2.contextOptions = none) :
    b.build env =
      (b2, b2.assembleConfig (b.resolvePort env) (b2.metricsUsername b.username) b.password) := by
  unfold Builder.build
  simp [h0, hs, hr]

/-- The assembled configuration carries the resolved port, a valid context and a
zero error, and the option set's ALPN list. -/
lemma assembleConfig_fields (b : Builder) (port : Nat) (u p : String) :
    (b.assembleConfig port u p).port = port ∧
    (b.assembleConfig port u p).contextValid = true ∧
    (b.assembleConfig port u p).lastError = 0 ∧
    (b.assembleConfig port u p).alpnList = b.contextOptions.alpnList ∧
    (b.assembleConfig port u p).hasInterceptor = b.websocketConfig.isSome := by
  unfold Builder.assembleConfig
  cases b.websocketConfig <;> exact ⟨rfl, rfl, rfl, rfl, rfl⟩

/-- An `ok` output of the ALPN stage applied to the detection stage keeps the
sticky error of the original builder. -/
lemma alpnStage_ok_lastError (b b2 : Builder) (env : Env) (port : Nat)
    (hs : b.detectCustomAuth.alpnStage env port = .ok b2) :
    b2.lastError = b.lastError := by
  rcases alpnStage_ok_shape _ _ _ _ hs with h' | h' | h' <;> rw [h'] <;>
    simp [detectCustomAuth_lastError]

/-- Neither the detection stage nor the ALPN stage nor `Build` itself ever
modifies the builder's sticky error. -/
lemma build_preserves_lastError (b : Builder) (env : Env) :
    ((b.build env).1).lastError = b.lastError := by
  by_cases h : b.lastError ≠ 0
  · rw [build_shortCircuit b env h]
  · have h0 : b.lastError = 0 := by omega
    cases hs : b.detectCustomAuth.alpnStage env (b.resolvePort env) with
    | error e =>
        rw [build_alpnError_case b env e h0 hs]
        exact detectCustomAuth_lastError b
    | ok b2 =>
        cases hr : env.realize b2.contextOptions with
        | some e =>
            rw [build_realizeError_case b env b2 e h0 hs hr]
            exact alpnStage_ok_lastError b b2 env _ hs
        | none =>
            rw [build_ok_case b env b2 h0 hs hr]
            exact alpnStage_ok_lastError b b2 env _ hs

/-- On a successful `Build` (valid output), the configuration's port is the
resolved port. -/
lemma build_success_port (b : Builder) (env : Env) (h0 : b.lastError = 0)
    (hv : ((b.build env).2).isValid = true) :
    ((b.build env).2).port = b.resolvePort env := by
  cases hs : b.detectCustomAuth.alpnStage env (b.resolvePort env) with
  | error e =>
      rw [build_alpnError_case b env e h0 hs] at hv
      simp [Config.isValid, Config.createInvalid] at hv
  | ok b2 =>
      cases hr : env.realize b2.contextOptions with
      | some e =>
          rw [build_realizeError_case b env b2 e h0 hs hr] at hv
          simp [Config.isValid, Config.createInvalid] at hv
      | none =>
          rw [build_ok_case b env b2 h0 hs hr]
          exact (assembleConfig_fields b2 _ _ _).1

lemma withCustomAuthorizer_noAlpn (b : Builder) (env : Env)
    (u an asig pw : String) (ha : env.alpnSupported = false) :
    b.withCustomAuthorizer env u an asig pw =
      { b with lastError := AWS_ERROR_INVALID_STATE } := by
  unfold Builder.withCustomAuthorizer
  simp [ha]

lemma withCustomAuthorizer_ok (b : Builder) (env : Env)
    (u an asig pw : String) (ha : env.alpnSupported = true)
    (hm : env.setAlpn "mqtt" = none) :
    b.withCustomAuthorizer env u an asig pw =
      { b with isUsingCustomAuthorizer := true,
               username := customAuthUsername b u an asig,
               password := pw,
               contextOptions := { b.contextOptions with alpnList := some "mqtt" },
               portOverride := 443 } := by
  unfold Builder.withCustomAuthorizer customAuthUsername
  simp [ha, hm]

lemma withCustomAuthorizer_alpnReject (b : Builder) (env : Env)
    (u an asig pw : String) (e : Nat) (ha : env.alpnSupported = true)
    (hm : env.setAlpn "mqtt" = some e) :
    b.withCustomAuthorizer env u an asig pw =
      { b with isUsingCustomAuthorizer := true,
               username := customAuthUsername b u an asig,
               password := pw,
               lastError := e,
               portOverride := 443 } := by
  unfold Builder.withCustomAuthorizer customAuthUsername
  simp [ha, hm]

/-- No fluent setter can clear a sticky error: under a well-formed external
layer, a nonzero sticky error stays nonzero across every setter call. -/
lemma applySetter_lastError (env : Env) (b : Builder) (c : SetterCall)
    (hwf : env.wf) (h : b.lastError ≠ 0) :
    (applySetter env b c).lastError ≠ 0 := by
  obtain ⟨hset, hca, hreal⟩ := hwf
  cases c with
  | withEndpoint e => exact h
  | withMetricsCollection en => exact h
  | withSdkName s => exact h
  | withSdkVersion s => exact h
  | withPortOverride p => exact h
  | withCertificateAuthority =>
      show (b.withCertificateAuthority env).lastError ≠ 0
      unfold Builder.withCertificateAuthority
      split
      · cases hc : env.caOverride with
        | none => exact h
        | some e =>
            have := hca e hc
            show e ≠ 0
            omega
      · exact h
  | withTcpKeepAlive => exact h
  | withTcpConnectTimeout ms => exact h
  | withTcpKeepAliveTimeout s => exact h
  | withTcpKeepAliveInterval s => exact h
  | withTcpKeepAliveMaxProbes p => exact h
  | withMinimumTlsVersion v => exact h
  | withHttpProxyOptions p => exact h
  | withUsername u => exact h
  | withPassword p => exact h
  | withCustomAuthorizer u an asig pw =>
      show (b.withCustomAuthorizer env u an asig pw).lastError ≠ 0
      cases ha : env.alpnSupported with
      | false =>
          rw [withCustomAuthorizer_noAlpn b env u an asig pw ha]
          show AWS_ERROR_INVALID_STATE ≠ 0
          simp [AWS_ERROR_INVALID_STATE]
      | true =>
          cases hm : env.setAlpn "mqtt" with
          | none => rw [withCustomAuthorizer_ok b env u an asig pw ha hm]; exact h
          | some e =>
              rw [withCustomAuthorizer_alpnReject b env u an asig pw e ha hm]
              have := hset "mqtt" e hm
              show e ≠ 0
              omega

/-- A sticky error survives any chain of fluent setter calls. -/
lemma applySetters_lastError (calls : List (Env × SetterCall)) :
    ∀ b : Builder, (∀ p ∈ calls, Env.wf p.1) → b.lastError ≠ 0 →
      (applySetters b calls).lastError ≠ 0 := by
  induction calls with
  | nil => intro b _ h; exact h
  | cons p rest ih =>
      intro b hwf h
      exact ih (applySetter p.1 b p.2)
        (fun q hq => hwf q (List.mem_cons_of_mem p hq))
        (applySetter_lastError p.1 b p.2 (hwf p (List.mem_cons_self p rest)) h)

lemma env_allOk_wf : Env.allOk.wf :=
  ⟨fun s e h => by simp [Env.allOk] at h,
   fun e h => by simp [Env.allOk] at h,
   fun o e h => by simp [Env.allOk] at h⟩

lemma env_noAlpn_wf : Env.noAlpn.wf :=
  ⟨fun s e h => by simp [Env.noAlpn] at h,
   fun e h => by simp [Env.noAlpn] at h,
   fun o e h => by simp [Env.noAlpn] at h⟩

end Lemmas

/-- Claim C7: the username composer `AddToUsernameParameter` is a pure function
that appends `?` when the current string contains no `?` and `&` otherwise,
then appends the value verbatim when it already contains the key prefix as a
substring and the prefix followed by the value otherwise; it agrees with the
specification-level composer on all inputs, `compose("", "bar", "name=") =
"?name=bar"`, `compose("?a=1", "bar", "name=") = "?a=1&name=bar"`, and a value
that already contains the prefix is appended verbatim, so repeated application
never duplicates the prefix. -/
theorem claim_C7_username_composer :
    (∀ current v pre, AddToUsernameParameter current v pre = composeSpec current v pre) ∧
    AddToUsernameParameter "" "bar" "name=" = "?name=bar" ∧
    AddToUsernameParameter "?a=1" "bar" "name=" = "?a=1&name=bar" ∧
    (∀ current v pre, strContains v pre = true →
      AddToUsernameParameter current v pre =
        (if strContains current "?" then current ++ "&" else current ++ "?") ++ v) := by
  refine ⟨fun c v p => rfl, by decide, by decide, fun c v p h => ?_⟩
  unfold AddToUsernameParameter
  simp [h]

/-- Witness for C7 at a concrete input: a value already containing the prefix is
appended verbatim. -/
theorem claim_C7_username_composer_witness :
    strContains "name=foo" "name=" = true ∧
    AddToUsernameParameter "" "name=foo" "name=" =
      (if strContains "" "?" then "" ++ "&" else "" ++ "?") ++ "name=foo" :=
  ⟨by decide, claim_C7_username_composer.2.2.2 "" "name=foo" "name=" (by decide)⟩

/-- Claim C1 (code bug): the implicit detection in `Build` uses
`find_first_of`, which searches for any single character of the marker strings
rather than the marker substrings, so the username "user" — which contains
neither `x-amz-customauthorizer-name=` nor `x-amz-customauthorizer-signature=`
as a substring — nevertheless gets the custom-authorizer flag set and the
"mqtt" ALPN list, where the same builder with an empty username takes the
direct-mTLS "x-amzn-mqtt-ca" list. -/
theorem claim_C1_detection_uses_find_first_of :
    strContains "user" "x-amz-customauthorizer-name=" = false ∧
    strContains "user" "x-amz-customauthorizer-signature=" = false ∧
    ({ Builder.common with username := "user" } : Builder).isUsingCustomAuthorizer = false ∧
    (Builder.detectCustomAuth { Builder.common with username := "user" }).isUsingCustomAuthorizer = true ∧
    ((Builder.build { Builder.common with username := "user" } Env.allOk).2).alpnList = some "mqtt" ∧
    ((Builder.build Builder.common Env.allOk).2).alpnList = some "x-amzn-mqtt-ca" := by
  exact ⟨by decide, by decide, rfl, by decide, by decide, by decide⟩

/-- Counterexample for C5 as stated: `CreateInvalid(0)` is an invalid
configuration (no TLS context, so `operator bool` is false) whose last-error
field is 0, refuting "valid iff last-error == 0" for every constructible
configuration. -/
theorem claim_C5_counterexample :
    Config.isValid (Config.createInvalid 0) = false ∧
    (Config.createInvalid 0).configLastError = 0 :=
  ⟨rfl, rfl⟩

/-- Claim C5 as amended: validity of a configuration is the validity of its
realized TLS context, not the error field.  For every configuration produced by
`Build` under a well-formed external layer the equivalence "valid iff
last-error == 0" does hold; `CreateInvalid e` is always invalid and carries
last-error `e` (so the equivalence fails exactly at `e = 0`); and the public
constructor yields last-error 0 with validity equal to the supplied context's
validity. -/
theorem claim_C5_validity_amended (b : Builder) (env : Env) (hwf : env.wf)
    (e : Nat) (endpoint : String) (port : Nat) (ctxValid : Bool) (alpn : Option String) :
    (Config.isValid ((b.build env).2) = true ↔ ((b.build env).2).configLastError = 0) ∧
    Config.isValid (Config.createInvalid e) = false ∧
    (Config.createInvalid e).configLastError = e ∧
    Config.isValid (Config.publicCtor endpoint port ctxValid alpn) = ctxValid ∧
    (Config.publicCtor endpoint port ctxValid alpn).configLastError = 0 := by
  refine ⟨?_, rfl, rfl, rfl, rfl⟩
  by_cases h : b.lastError ≠ 0
  · rw [build_shortCircuit b env h]
    simp [Config.isValid, Config.createInvalid, Config.configLastError, h]
  · have h0 : b.lastError = 0 := by omega
    cases hs : b.detectCustomAuth.alpnStage env (b.resolvePort env) with
    | error e' =>
        rw [build_alpnError_case b env e' h0 hs]
        have hpos : 0 < e' := by
          rcases alpnStage_error _ env _ e' hs with h' | h'
          · exact hwf.1 _ _ h'
          · exact hwf.1 _ _ h'
        simp only [Config.isValid, Config.createInvalid, Config.configLastError]
        constructor
        · intro hv; cases hv
        · intro hv; omega
    | ok b2 =>
        cases hr : env.realize b2.contextOptions with
        | some e' =>
            rw [build_realizeError_case b env b2 e' h0 hs hr]
            have hpos : 0 < e' := hwf.2.2 _ _ hr
            simp only [Config.isValid, Config.createInvalid, Config.configLastError]
            constructor
            · intro hv; cases hv
            · intro hv; omega
        | none =>
            rw [build_ok_case b env b2 h0 hs hr]
            obtain ⟨_, hval, herr, _, _⟩ := assembleConfig_fields b2 (b.resolvePort env)
              (b2.metricsUsername b.username) b.password
            simp [Config.isValid, Config.configLastError, hval, herr]

/-- Witness for C5 (amended): the equivalence instantiated at a concrete
builder and a concrete well-formed environment. -/
theorem claim_C5_validity_amended_witness :
    Config.isValid ((Builder.common.build Env.allOk).2) = true ↔
      ((Builder.common.build Env.allOk).2).configLastError = 0 :=
  (claim_C5_validity_amended Builder.common Env.allOk env_allOk_wf 0 "" 0 true none).1

/-- Counterexample for C4 as stated: a builder constructed with an invalid
certificate path (sticky error 5) is still mutated by a subsequent fluent
setter — `WithEndpoint` changes the endpoint field — so the setters are not
no-ops that leave the builder's fields unchanged. -/
theorem claim_C4_counterexample :
    (Builder.mtlsCtor (some 5)).lastError = 5 ∧
    (Builder.mtlsCtor (some 5)).endpoint = "" ∧
    ((Builder.mtlsCtor (some 5)).withEndpoint "example.com").endpoint = "example.com" ∧
    (Builder.mtlsCtor (some 5)).withEndpoint "example.com" ≠ Builder.mtlsCtor (some 5) := by
  exact ⟨rfl, rfl, rfl, by decide⟩

/-- Claim C4 as amended: after a prior operation records a nonzero sticky error,
subsequent fluent setters still update their fields (so they are not no-ops),
but none of them — under a well-formed external layer — can clear the error:
it stays nonzero (fallible setters may replace it with another nonzero error),
and `Build` short-circuits, leaving the builder untouched, skipping all
port/ALPN/metrics processing, and returning an invalid configuration carrying
the builder's current sticky error. -/
theorem claim_C4_sticky_error_amended (b : Builder) (env : Env)
    (calls : List (Env × SetterCall)) (hwf : ∀ p ∈ calls, Env.wf p.1)
    (h : b.lastError ≠ 0) :
    (applySetters b calls).lastError ≠ 0 ∧
    b.build env = (b, Config.createInvalid b.lastError) ∧
    Config.isValid (((applySetters b calls).build env).2) = false ∧
    (((applySetters b calls).build env).2).configLastError =
      (applySetters b calls).lastError := by
  have hne := applySetters_lastError calls b hwf h
  refine ⟨hne, build_shortCircuit b env h, ?_, ?_⟩
  · rw [build_shortCircuit _ env hne]; rfl
  · rw [build_shortCircuit _ env hne]; rfl

/-- Witness for C4 (amended): a builder with sticky error 5, one subsequent
`WithEndpoint` call, and the short-circuiting `Build`. -/
theorem claim_C4_sticky_error_amended_witness :
    (applySetters (Builder.mtlsCtor (some 5))
        [(Env.allOk, SetterCall.withEndpoint "example.com")]).lastError ≠ 0 ∧
    (Builder.mtlsCtor (some 5)).build Env.allOk =
      (Builder.mtlsCtor (some 5), Config.createInvalid 5) := by
  have h := claim_C4_sticky_error_amended (Builder.mtlsCtor (some 5)) Env.allOk
    [(Env.allOk, SetterCall.withEndpoint "example.com")]
    (by intro p hp; rw [List.mem_singleton] at hp; subst hp; exact env_allOk_wf)
    (by decide)
  exact ⟨h.1, h.2.1⟩

/-- Claim C10: the sticky error, once nonzero, is never reset to zero by any
fluent setter (under a well-formed external layer) nor by `Build`, so every
later `Build` on that builder yields an invalid configuration; the no-argument
default constructor starts at `AWS_ERROR_INVALID_STATE`, so such a builder can
never produce a valid configuration, whereas `NewDefaultBuilder` starts with no
error. -/
theorem claim_C10_sticky_invariant :
    (∀ (b : Builder) (calls : List (Env × SetterCall)),
        (∀ p ∈ calls, Env.wf p.1) → b.lastError ≠ 0 →
        (applySetters b calls).lastError ≠ 0) ∧
    (∀ (b : Builder) (env : Env), ((b.build env).1).lastError = b.lastError) ∧
    Builder.defaultCtor.lastError = AWS_ERROR_INVALID_STATE ∧
    (∀ (calls : List (Env × SetterCall)) (env : Env),
        (∀ p ∈ calls, Env.wf p.1) →
        Config.isValid (((applySetters Builder.defaultCtor calls).build env).2) = false) ∧
    (∀ r, (Builder.newDefaultBuilder r).lastError = 0) := by
  refine ⟨fun b calls hwf h => applySetters_lastError calls b hwf h,
          fun b env => build_preserves_lastError b env, rfl, ?_, ?_⟩
  · intro calls env hwf
    have hne := applySetters_lastError calls Builder.defaultCtor hwf (by decide)
    rw [build_shortCircuit _ env hne]
    rfl
  · intro r
    cases r <;> rfl

/-- Witness for C10 at concrete inputs: a default-constructed builder keeps a
nonzero error with no setter calls and builds an invalid configuration, while
`NewDefaultBuilder` starts error-free. -/
theorem claim_C10_sticky_invariant_witness :
    (applySetters Builder.defaultCtor []).lastError ≠ 0 ∧
    Config.isValid (((applySetters Builder.defaultCtor []).build Env.allOk).2) = false ∧
    (Builder.newDefaultBuilder none).lastError = 0 := by
  refine ⟨claim_C10_sticky_invariant.1 Builder.defaultCtor []
            (by intro p hp; cases hp) (by decide),
          claim_C10_sticky_invariant.2.2.2.1 [] Env.allOk (by intro p hp; cases hp),
          claim_C10_sticky_invariant.2.2.2.2 none⟩

/-- Claim C2: `Build` resolves the port by letting a nonzero explicit override
always win; otherwise the port is 443 when a websocket setup is present or the
platform supports ALPN, and 8883 when neither holds; and every valid
configuration `Build` produces carries exactly the resolved port. -/
theorem claim_C2_port_resolution (b : Builder) (env : Env) :
    (b.portOverride ≠ 0 → b.resolvePort env = b.portOverride) ∧
    (b.portOverride = 0 → (b.websocketConfig.isSome || env.alpnSupported) = true →
        b.resolvePort env = 443) ∧
    (b.portOverride = 0 → b.websocketConfig = none → env.alpnSupported = false →
        b.resolvePort env = 8883) ∧
    (b.lastError = 0 → Config.isValid ((b.build env).2) = true →
        ((b.build env).2).port = b.resolvePort env) := by
  refine ⟨?_, ?_, ?_, fun h0 hv => build_success_port b env h0 hv⟩
  · intro h; unfold Builder.resolvePort; simp [h]
  · intro h hw; unfold Builder.resolvePort; simp [h, hw]
  · intro h hw ha; unfold Builder.resolvePort; simp [h, hw, ha]

/-- Witness for C2 at concrete inputs: no websocket and no ALPN gives 8883, a
nonzero override wins, no override with ALPN gives 443, and a successful
`Build` carries the resolved port. -/
theorem claim_C2_port_resolution_witness :
    Builder.common.resolvePort Env.noAlpn = 8883 ∧
    (Builder.withPortOverride Builder.common 1234).resolvePort Env.allOk = 1234 ∧
    Builder.common.resolvePort Env.allOk = 443 ∧
    ((Builder.common.build Env.allOk).2).port = Builder.common.resolvePort Env.allOk :=
  ⟨(claim_C2_port_resolution Builder.common Env.noAlpn).2.2.1 rfl rfl rfl,
   (claim_C2_port_resolution (Builder.withPortOverride Builder.common 1234) Env.allOk).1
     (by decide),
   (claim_C2_port_resolution Builder.common Env.allOk).2.1 rfl (by decide),
   (claim_C2_port_resolution Builder.common Env.allOk).2.2.2 rfl (by decide)⟩

lemma customAuthUsername_keep_previous (b : Builder) (an asig : String) :
    customAuthUsername b "" an asig = customAuthUsername b b.username an asig := by
  unfold customAuthUsername
  by_cases hb : b.username = "" <;> simp [hb]

/-- Claim C9: `WithCustomAuthorizer` on a platform without ALPN records
`AWS_ERROR_INVALID_STATE` and makes no other change; with ALPN supported it
sets the flag, rebuilds the username via the composer (keeping a previously set
username when the argument is empty and appending each authorizer parameter
only when nonempty), sets the password, sets the ALPN list to "mqtt", and
forces the port override to 443, so a later port resolution yields 443 under
every environment. -/
theorem claim_C9_with_custom_authorizer (b : Builder) (env : Env)
    (u an asig pw : String) :
    (env.alpnSupported = false →
        b.withCustomAuthorizer env u an asig pw =
          { b with lastError := AWS_ERROR_INVALID_STATE }) ∧
    (env.alpnSupported = true → env.setAlpn "mqtt" = none →
        b.withCustomAuthorizer env u an asig pw =
          { b with isUsingCustomAuthorizer := true,
                   username := customAuthUsername b u an asig,
                   password := pw,
                   contextOptions := { b.contextOptions with alpnList := some "mqtt" },
                   portOverride := 443 }) ∧
    (b.withCustomAuthorizer env "" an asig pw =
        b.withCustomAuthorizer env b.username an asig pw) ∧
    (an = "" → asig = "" →
        customAuthUsername b u an asig = (if u = "" then b.username else u)) ∧
    (env.alpnSupported = true → ∀ env2 : Env,
        (b.withCustomAuthorizer env u an asig pw).resolvePort env2 = 443) := by
  refine ⟨fun ha => withCustomAuthorizer_noAlpn b env u an asig pw ha,
          fun ha hm => withCustomAuthorizer_ok b env u an asig pw ha hm, ?_, ?_, ?_⟩
  · cases ha : env.alpnSupported with
    | false =>
        rw [withCustomAuthorizer_noAlpn b env _ an asig pw ha,
            withCustomAuthorizer_noAlpn b env _ an asig pw ha]
    | true =>
        cases hm : env.setAlpn "mqtt" with
        | none =>
            rw [withCustomAuthorizer_ok b env _ an asig pw ha hm,
                withCustomAuthorizer_ok b env _ an asig pw ha hm,
                customAuthUsername_keep_previous]
        | some e =>
            rw [withCustomAuthorizer_alpnReject b env _ an asig pw e ha hm,
                withCustomAuthorizer_alpnReject b env _ an asig pw e ha hm,
                customAuthUsername_keep_previous]
  · intro han hasig
    unfold customAuthUsername
    subst han hasig
    by_cases hb : b.username = "" <;> by_cases hu : u = "" <;> simp [hb, hu]
  · intro ha env2
    have hport : (b.withCustomAuthorizer env u an asig pw).portOverride = 443 := by
      cases hm : env.setAlpn "mqtt" with
      | none => rw [withCustomAuthorizer_ok b env u an asig pw ha hm]
      | some e => rw [withCustomAuthorizer_alpnReject b env u an asig pw e ha hm]
    unfold Builder.resolvePort
    rw [hport]
    simp

/-- Witness for C9 at concrete inputs: the no-ALPN error path and the
ALPN-supported rewrite path. -/
theorem claim_C9_with_custom_authorizer_witness :
    Builder.common.withCustomAuthorizer Env.noAlpn "u" "an" "asig" "pw" =
      { Builder.common with lastError := AWS_ERROR_INVALID_STATE } ∧
    Builder.common.withCustomAuthorizer Env.allOk "u" "an" "asig" "pw" =
      { Builder.common with
          isUsingCustomAuthorizer := true,
          username := customAuthUsername Builder.common "u" "an" "asig",
          password := "pw",
          contextOptions := { Builder.common.contextOptions with alpnList := some "mqtt" },
          portOverride := 443 } ∧
    (Builder.common.withCustomAuthorizer Env.allOk "u" "an" "asig" "pw").resolvePort
        Env.noAlpn = 443 :=
  ⟨(claim_C9_with_custom_authorizer Builder.common Env.noAlpn "u" "an" "asig" "pw").1 rfl,
   (claim_C9_with_custom_authorizer Builder.common Env.allOk "u" "an" "asig" "pw").2.1 rfl rfl,
   (claim_C9_with_custom_authorizer Builder.common Env.allOk "u" "an" "asig" "pw").2.2.2.2
     rfl Env.noAlpn⟩

/-- Claim C6 (code bug): `NewConnection` on an invalid configuration returns no
connection and writes the configuration's sticky error into the facade's
`m_lastError` member — but the public `LastError()` accessor returns the
underlying protocol client's error instead, so the propagated error is not
observable (here it stays 0); on valid configurations, login credentials are
set exactly when the username or the password is nonempty, a login failure
fails the whole call, and no connection object is returned on any failure. -/
theorem claim_C6_new_connection :
    ((newConnection { internalLastError := 0, clientErr := 0 } CrtEnv.allOk
        (Config.createInvalid 5)).2 = none ∧
     (newConnection { internalLastError := 0, clientErr := 0 } CrtEnv.allOk
        (Config.createInvalid 5)).1.internalLastError = 5 ∧
     (newConnection { internalLastError := 0, clientErr := 0 } CrtEnv.allOk
        (Config.createInvalid 5)).1.observableLastError = 0) ∧
    (∀ (st : MqttClientState) (env : CrtEnv) (cfg : Config),
        cfg.isValid = false →
        (newConnection st env cfg).2 = none ∧
        (newConnection st env cfg).1.internalLastError = cfg.configLastError) ∧
    (∀ (st : MqttClientState) (env : CrtEnv) (cfg : Config) (c : Connection),
        (newConnection st env cfg).2 = some c →
        c.loginSet = (cfg.username ≠ "" || cfg.password ≠ "")) ∧
    (∀ (st : MqttClientState) (env : CrtEnv) (cfg : Config),
        (cfg.username ≠ "" || cfg.password ≠ "") = true → env.loginOk = false →
        (newConnection st env cfg).2 = none) := by
  refine ⟨⟨rfl, rfl, rfl⟩, ?_, ?_, ?_⟩
  · intro st env cfg hinv
    unfold newConnection
    simp [hinv]
  · intro st env cfg c hsome
    unfold newConnection at hsome
    split at hsome
    · cases hsome
    · split at hsome
      · cases hsome
      · split at hsome
        · cases hsome
        · split at hsome
          · cases hsome
          · simp only [Option.some.injEq] at hsome
            rw [← hsome]
  · intro st env cfg hlogin hfail
    unfold newConnection
    split
    · rfl
    · split
      · rfl
      · split
        · rfl
        · split
          · rfl
          · rename_i hguard
            exact absurd (by rw [hlogin, hfail]; rfl) hguard

/-- Witness for C6: the universally quantified parts instantiated at concrete
inputs. -/
theorem claim_C6_new_connection_witness :
    ((newConnection { internalLastError := 0, clientErr := 0 } CrtEnv.allOk
        (Config.createInvalid 7)).2 = none ∧
     (newConnection { internalLastError := 0, clientErr := 0 } CrtEnv.allOk
        (Config.createInvalid 7)).1.internalLastError =
          (Config.createInvalid 7).configLastError) ∧
    (newConnection { internalLastError := 0, clientErr := 0 }
        { CrtEnv.allOk with loginOk := false }
        { Config.publicCtor "ep" 443 true none with username := "user" }).2 = none :=
  ⟨claim_C6_new_connection.2.1 { internalLastError := 0, clientErr := 0 } CrtEnv.allOk
     (Config.createInvalid 7) rfl,
   claim_C6_new_connection.2.2.2 { internalLastError := 0, clientErr := 0 }
     { CrtEnv.allOk with loginOk := false }
     { Config.publicCtor "ep" 443 true none with username := "user" }
     (by decide) rfl⟩

lemma detectCustomAuth_proxyOptions (b : Builder) :
    b.detectCustomAuth.proxyOptions = b.proxyOptions := by
  rcases detectCustomAuth_cases b with h | h <;> rw [h]

/-- An `ok` output of the ALPN stage keeps every builder field except possibly
the options' ALPN list; in particular websocket config and proxy options. -/
lemma alpnStage_ok_preserves (b b2 : Builder) (env : Env) (port : Nat)
    (hs : b.alpnStage env port = .ok b2) :
    b2.websocketConfig = b.websocketConfig ∧ b2.proxyOptions = b.proxyOptions ∧
    b2.endpoint = b.endpoint := by
  rcases alpnStage_ok_shape _ _ _ _ hs with h | h | h <;> rw [h] <;>
    exact ⟨rfl, rfl, rfl⟩

/-- With a websocket setup present, the ALPN stage never installs the
direct-mTLS list: it leaves the builder unchanged, installs "mqtt", or fails. -/
lemma alpnStage_ws_shape (b : Builder) (env : Env) (port : Nat)
    (hw : b.websocketConfig.isNone = false) :
    b.alpnStage env port = .ok b ∨
    b.alpnStage env port =
      .ok { b with contextOptions := { b.contextOptions with alpnList := some "mqtt" } } ∨
    (∃ e, env.setAlpn "mqtt" = some e ∧ b.alpnStage env port = .error e) := by
  by_cases hf : b.isUsingCustomAuthorizer = true
  · rw [alpnStage_customAuth b env port hf]
    cases hm : env.setAlpn "mqtt" with
    | none => exact Or.inr (Or.inl rfl)
    | some e => exact Or.inr (Or.inr ⟨e, rfl, rfl⟩)
  · have hf' : b.isUsingCustomAuthorizer = false := by
      revert hf; cases b.isUsingCustomAuthorizer <;> simp
    rw [alpnStage_skip b env port hf' (by rw [hw]; simp)]
    exact Or.inl rfl

/-- The proxy options the websocket assembly path stores. -/
lemma assembleConfig_ws_proxy (b : Builder) (ws : WebsocketConfig) (port : Nat)
    (u p : String) (hw : b.websocketConfig = some ws) :
    (b.assembleConfig port u p).proxyOptions =
      (if ws.proxyOptions.isSome && b.proxyOptions.isNone then ws.proxyOptions
       else b.proxyOptions) := by
  unfold Builder.assembleConfig
  rw [hw]

/-- The source's "use websocket proxy options only when the builder has none"
guard is precedence for the builder-level options. -/
lemma proxy_precedence_form (bp wsp : Option Nat) :
    (if wsp.isSome && bp.isNone then wsp else bp) =
      (if bp.isSome then bp else wsp) := by
  cases bp <;> cases wsp <;> rfl

/-- Claim C8: with a websocket setup present at `Build` time, a successful
build yields a configuration that carries the interceptor, and its proxy
options follow the precedence rule: builder-level options win when set, else
whichever of the two is present is used. -/
theorem claim_C8_proxy_precedence (b : Builder) (env : Env) (ws : WebsocketConfig)
    (h0 : b.lastError = 0) (hws : b.websocketConfig = some ws)
    (hm : env.setAlpn "mqtt" = none) (hr : ∀ o, env.realize o = none) :
    Config.isValid ((b.build env).2) = true ∧
    ((b.build env).2).hasInterceptor = true ∧
    ((b.build env).2).proxyOptions =
      (if b.proxyOptions.isSome then b.proxyOptions else ws.proxyOptions) := by
  have hdws : b.detectCustomAuth.websocketConfig = some ws := by
    rw [detectCustomAuth_websocketConfig]; exact hws
  have hwn : b.detectCustomAuth.websocketConfig.isNone = false := by
    rw [hdws]; rfl
  have hstage :
      b.detectCustomAuth.alpnStage env (b.resolvePort env) = .ok b.detectCustomAuth ∨
      b.detectCustomAuth.alpnStage env (b.resolvePort env) =
        .ok { b.detectCustomAuth with
              contextOptions := { b.detectCustomAuth.contextOptions with alpnList := some "mqtt" } } := by
    rcases alpnStage_ws_shape b.detectCustomAuth env (b.resolvePort env) hwn with h | h | ⟨e, he, h⟩
    · exact Or.inl h
    · exact Or.inr h
    · rw [hm] at he; cases he
  have main : ∀ b2 : Builder,
      b.detectCustomAuth.alpnStage env (b.resolvePort env) = .ok b2 →
      b2.websocketConfig = some ws → b2.proxyOptions = b.proxyOptions →
      Config.isValid ((b.build env).2) = true ∧
      ((b.build env).2).hasInterceptor = true ∧
      ((b.build env).2).proxyOptions =
        (if b.proxyOptions.isSome then b.proxyOptions else ws.proxyOptions) := by
    intro b2 hs hbw hbp
    rw [build_ok_case b env b2 h0 hs (hr _)]
    obtain ⟨_, hval, _, _, hint⟩ := assembleConfig_fields b2 (b.resolvePort env)
      (b2.metricsUsername b.username) b.password
    refine ⟨hval, by rw [hint, hbw]; rfl, ?_⟩
    rw [assembleConfig_ws_proxy b2 ws _ _ _ hbw, hbp, proxy_precedence_form]
  rcases hstage with h | h
  · exact main _ h hdws (detectCustomAuth_proxyOptions b)
  · exact main _ h (by rw [← hdws])
      (by rw [← detectCustomAuth_proxyOptions b])

/-- Witness for C8: a builder with both builder-level and websocket-level proxy
options, built under the all-success environment, uses the builder-level value. -/
theorem claim_C8_proxy_precedence_witness :
    Config.isValid (((Builder.websocketCtor
        { proxyOptions := some 2, signingRegion := "r" } none).withHttpProxyOptions 1).build
          Env.allOk).2 = true ∧
    ((((Builder.websocketCtor { proxyOptions := some 2, signingRegion := "r" } none).withHttpProxyOptions
        1).build Env.allOk).2).hasInterceptor = true ∧
    ((((Builder.websocketCtor { proxyOptions := some 2, signingRegion := "r" } none).withHttpProxyOptions
        1).build Env.allOk).2).proxyOptions = some 1 := by
  have h := claim_C8_proxy_precedence
    ((Builder.websocketCtor { proxyOptions := some 2, signingRegion := "r" } none).withHttpProxyOptions 1)
    Env.allOk { proxyOptions := some 2, signingRegion := "r" } rfl rfl rfl (fun o => rfl)
  exact ⟨h.1, h.2.1, h.2.2⟩

lemma alpnStage_direct_ok (b : Builder) (env : Env) (port : Nat)
    (hf : b.isUsingCustomAuthorizer = false) (hp : port = 443)
    (hw : b.websocketConfig = none) (ha : env.alpnSupported = true)
    (hsx : env.setAlpn "x-amzn-mqtt-ca" = none) :
    b.alpnStage env port =
      .ok { b with contextOptions := { b.contextOptions with alpnList := some "x-amzn-mqtt-ca" } } := by
  rw [alpnStage_direct b env port hf hp hw ha, hsx]

lemma alpnStage_customAuth_ok (b : Builder) (env : Env) (port : Nat)
    (hf : b.isUsingCustomAuthorizer = true) (hm : env.setAlpn "mqtt" = none) :
    b.alpnStage env port =
      .ok { b with contextOptions := { b.contextOptions with alpnList := some "mqtt" } } := by
  rw [alpnStage_customAuth b env port hf, hm]

lemma alpnStage_customAuth_err (b : Builder) (env : Env) (port : Nat) (e : Nat)
    (hf : b.isUsingCustomAuthorizer = true) (hm : env.setAlpn "mqtt" = some e) :
    b.alpnStage env port = .error e := by
  rw [alpnStage_customAuth b env port hf, hm]

/-- Claim C3: ALPN selection in `Build`.  On the direct-mTLS path (resolved
port 443, no websocket, ALPN supported, authorizer not in use after detection)
the produced configuration carries exactly the "x-amzn-mqtt-ca" list; whenever
the authorizer is in use (explicitly or detected) the configuration carries
exactly the "mqtt" list and the build succeeds regardless of the resolved port
(a non-443 port is only a logged warning); a rejected set operation makes
`Build` return an invalid configuration with the rejection error, and this is
the only ALPN-stage failure; and the websocket path never ends up with the
direct-mTLS list. -/
theorem claim_C3_alpn_selection (b : Builder) (env : Env) (h0 : b.lastError = 0) :
    (b.resolvePort env = 443 → b.websocketConfig = none → env.alpnSupported = true →
        b.detectCustomAuth.isUsingCustomAuthorizer = false →
        env.setAlpn "x-amzn-mqtt-ca" = none → (∀ o, env.realize o = none) →
        Config.isValid ((b.build env).2) = true ∧
        ((b.build env).2).alpnList = some "x-amzn-mqtt-ca") ∧
    (b.detectCustomAuth.isUsingCustomAuthorizer = true →
        env.setAlpn "mqtt" = none → (∀ o, env.realize o = none) →
        Config.isValid ((b.build env).2) = true ∧
        ((b.build env).2).alpnList = some "mqtt") ∧
    (∀ e, b.detectCustomAuth.isUsingCustomAuthorizer = true →
        env.setAlpn "mqtt" = some e →
        (b.build env).2 = Config.createInvalid e) ∧
    (b.websocketConfig.isSome = true →
        b.contextOptions.alpnList ≠ some "x-amzn-mqtt-ca" →
        ((b.build env).2).alpnList ≠ some "x-amzn-mqtt-ca") ∧
    (env.setAlpn "x-amzn-mqtt-ca" = none → env.setAlpn "mqtt" = none →
        (∀ o, env.realize o = none) →
        Config.isValid ((b.build env).2) = true) := by
  refine ⟨?_, ?_, ?_, ?_, ?_⟩
  · intro hp hw ha hf hsx hrr
    have hdw : b.detectCustomAuth.websocketConfig = none := by
      rw [detectCustomAuth_websocketConfig]; exact hw
    have hstage := alpnStage_direct_ok b.detectCustomAuth env (b.resolvePort env)
      hf hp hdw ha hsx
    rw [build_ok_case b env _ h0 hstage (hrr _)]
    obtain ⟨_, hval, _, halpn, _⟩ := assembleConfig_fields _ (b.resolvePort env)
      (Builder.metricsUsername _ b.username) b.password
    exact ⟨hval, by rw [halpn]⟩
  · intro hf hm hrr
    have hstage := alpnStage_customAuth_ok b.detectCustomAuth env (b.resolvePort env) hf hm
    rw [build_ok_case b env _ h0 hstage (hrr _)]
    obtain ⟨_, hval, _, halpn, _⟩ := assembleConfig_fields _ (b.resolvePort env)
      (Builder.metricsUsername _ b.username) b.password
    exact ⟨hval, by rw [halpn]⟩
  · intro e hf hm
    have hstage := alpnStage_customAuth_err b.detectCustomAuth env (b.resolvePort env) e hf hm
    rw [build_alpnError_case b env e h0 hstage]
  · intro hws hne
    have hwn : b.detectCustomAuth.websocketConfig.isNone = false := by
      rw [detectCustomAuth_websocketConfig]
      cases hb : b.websocketConfig with
      | none => rw [hb] at hws; cases hws
      | some w => rfl
    rcases alpnStage_ws_shape b.detectCustomAuth env (b.resolvePort env) hwn with
      h | h | ⟨e, _, h⟩
    · cases hr : env.realize b.detectCustomAuth.contextOptions with
      | some e => rw [build_realizeError_case b env _ e h0 h hr]; simp [Config.createInvalid]
      | none =>
          rw [build_ok_case b env _ h0 h hr]
          obtain ⟨_, _, _, halpn, _⟩ := assembleConfig_fields _ (b.resolvePort env)
            (Builder.metricsUsername _ b.username) b.password
          rw [halpn, detectCustomAuth_contextOptions]
          exact hne
    · cases hr : env.realize
        ({ b.detectCustomAuth with
           contextOptions := { b.detectCustomAuth.contextOptions with alpnList := some "mqtt" } } : Builder).contextOptions with
      | some e => rw [build_realizeError_case b env _ e h0 h hr]; simp [Config.createInvalid]
      | none =>
          rw [build_ok_case b env _ h0 h hr]
          obtain ⟨_, _, _, halpn, _⟩ := assembleConfig_fields _ (b.resolvePort env)
            (Builder.metricsUsername _ b.username) b.password
          rw [halpn]
          simp
    · rw [build_alpnError_case b env e h0 h]
      simp [Config.createInvalid]
  · intro hsx hm hrr
    by_cases hf : b.detectCustomAuth.isUsingCustomAuthorizer = true
    · have hstage := alpnStage_customAuth_ok b.detectCustomAuth env (b.resolvePort env) hf hm
      rw [build_ok_case b env _ h0 hstage (hrr _)]
      exact (assembleConfig_fields _ (b.resolvePort env)
        (Builder.metricsUsername _ b.username) b.password).2.1
    · have hf' : b.detectCustomAuth.isUsingCustomAuthorizer = false := by
        revert hf; cases b.detectCustomAuth.isUsingCustomAuthorizer <;> simp
      by_cases hc : (b.resolvePort env == 443 &&
          b.detectCustomAuth.websocketConfig.isNone && env.alpnSupported) = true
      · have hparts := hc
        simp only [Bool.and_eq_true] at hparts
        obtain ⟨⟨hp, hw⟩, ha⟩ := hparts
        have hstage := alpnStage_direct_ok b.detectCustomAuth env (b.resolvePort env)
          hf' (by simpa using hp) (Option.isNone_iff_eq_none.mp hw) ha hsx
        rw [build_ok_case b env _ h0 hstage (hrr _)]
        exact (assembleConfig_fields _ (b.resolvePort env)
          (Builder.metricsUsername _ b.username) b.password).2.1
      · have hc' : (b.resolvePort env == 443 &&
            b.detectCustomAuth.websocketConfig.isNone && env.alpnSupported) = false := by
          revert hc
          cases (b.resolvePort env == 443 &&
            b.detectCustomAuth.websocketConfig.isNone && env.alpnSupported) <;> simp
        have hstage := alpnStage_skip b.detectCustomAuth env (b.resolvePort env) hf' hc'
        rw [build_ok_case b env _ h0 hstage (hrr _)]
        exact (assembleConfig_fields _ (b.resolvePort env)
          (Builder.metricsUsername _ b.username) b.password).2.1

/-- Witness for C3 at concrete inputs: the direct-mTLS builder takes the
"x-amzn-mqtt-ca" list, and the same builder with the authorizer flag set takes
the "mqtt" list on port 8883 (override) while still building successfully. -/
theorem claim_C3_alpn_selection_witness :
    (Config.isValid ((Builder.common.build Env.allOk).2) = true ∧
     ((Builder.common.build Env.allOk).2).alpnList = some "x-amzn-mqtt-ca") ∧
    (Config.isValid ((({ Builder.common with isUsingCustomAuthorizer := true, portOverride := 8883 } : Builder).build Env.allOk).2) = true ∧
     ((({ Builder.common with isUsingCustomAuthorizer := true, portOverride := 8883 } : Builder).build Env.allOk).2).alpnList = some "mqtt") :=
  ⟨(claim_C3_alpn_selection Builder.common Env.allOk rfl).1 rfl rfl rfl (by decide) rfl
     (fun o => rfl),
   (claim_C3_alpn_selection { Builder.common with isUsingCustomAuthorizer := true, portOverride := 8883 } Env.allOk rfl).2.1 (by decide) rfl (fun o => rfl)⟩

end AwsIot
